import Mathlib

/-!
Verification of the RadControl native backend (src-tauri) against its
specification.  The Rust sources `commands/o2.rs`, `commands/ports.rs` and
`commands/registry.rs` are shallowly embedded below.  Rust `&str`/`String`
values are modelled as Lean `String` (with the underlying `List Char` used
for character-level operations); external effects (the shell runner, the
filesystem, the environment, serde_json) are abstract parameters, so every
code path of the embedded functions is the direct translation of the Rust.
-/

/-! ### Character/list utilities modelling Rust `str` primitives -/

/-- ASCII whitespace test; models the whitespace class used by Rust
`str::trim` on the ASCII range (the sources only ever meet ASCII). -/
def isWS (c : Char) : Bool :=
  c = ' ' || c = '\t' || c = '\n' || c = '\r'

/-- Models Rust `str::trim`: drop whitespace from both ends. -/
def trimL (l : List Char) : List Char :=
  ((l.dropWhile isWS).reverse.dropWhile isWS).reverse

/-- Models Rust `str::split(c)` for a single-character pattern: the list of
segments between occurrences of `c` (always non-empty). -/
def splitCh (c : Char) : List Char → List (List Char)
  | [] => [[]]
  | d :: ds =>
    if d = c then [] :: splitCh c ds
    else
      match splitCh c ds with
      | [] => [[d]]
      | seg :: segs => (d :: seg) :: segs

/-- Boolean test that `pat` is a prefix of `l`. -/
def startsSeq : List Char → List Char → Bool
  | [], _ => true
  | _ :: _, [] => false
  | a :: as, b :: bs => a = b && startsSeq as bs

/-- The suffix of `l` strictly after the first occurrence of `pat`
(`none` when `pat` does not occur).  Together with `takeUntilSeq` this
models Rust `str::split(pat).nth(1)` for a non-empty pattern. -/
def afterSeq (pat : List Char) : List Char → Option (List Char)
  | [] => if startsSeq pat [] then some [] else none
  | l@(_ :: cs) =>
    if startsSeq pat l then some (l.drop pat.length) else afterSeq pat cs

/-- The prefix of `l` up to (excluding) the first occurrence of `pat`. -/
def takeUntilSeq (pat : List Char) : List Char → List Char
  | [] => []
  | l@(c :: cs) => if startsSeq pat l then [] else c :: takeUntilSeq pat cs

/-- Models Rust `s.split(pat).nth(1)` (the segment between the first and
second occurrence of the non-empty pattern `pat`, or the tail after the
first occurrence when there is no second one). -/
def nthSeg1 (pat : List Char) (l : List Char) : Option (List Char) :=
  (afterSeq pat l).map (takeUntilSeq pat)

/-- Models Rust `str::contains(pat)` for a non-empty substring pattern. -/
def containsSeq (pat : List Char) (l : List Char) : Bool :=
  (afterSeq pat l).isSome

/-- Strip one trailing carriage return (part of Rust `str::lines`). -/
def dropCR (l : List Char) : List Char :=
  if l.getLast? = some '\r' then l.dropLast else l

/-- Models Rust `str::lines`: split on `'\n'` treated as a terminator (no
trailing empty line), stripping one trailing `'\r'` from each line. -/
def linesL (l : List Char) : List (List Char) :=
  if l = [] then []
  else
    let ps := splitCh '\n' l
    let ps := if ps.getLast? = some [] then ps.dropLast else ps
    ps.map dropCR

/-- Numeric value of a list of ASCII digits (most significant first). -/
def digitsVal (l : List Char) : Nat :=
  l.foldl (fun n c => n * 10 + (c.toNat - '0'.toNat)) 0

/-- Models Rust `str::parse::<u32>()` on a string that is (by construction)
made of ASCII digits only: fails on the empty string and on overflow past
`u32::MAX`. -/
def parseU32 (l : List Char) : Option Nat :=
  if l = [] then none
  else if digitsVal l < 4294967296 then some (digitsVal l) else none

/-! ### `src-tauri/src/commands/o2.rs` -/

/-- `is_safe_token`: non-empty and every char in `[a-z0-9_-]`. -/
def is_safe_token (l : List Char) : Bool :=
  !l.isEmpty && l.all (fun c =>
    ('a' ≤ c && c ≤ 'z') || ('0' ≤ c && c ≤ '9') || c = '_' || c = '-')

/-- `is_port_token`: non-empty and every char an ASCII digit. -/
def is_port_token (l : List Char) : Bool :=
  !l.isEmpty && l.all (fun c => '0' ≤ c && c ≤ '9')

/-- `verb_to_script`: the closed verb table (the Rust `match` rendered as
an if-chain over string equality). -/
def verb_to_script (verb : String) : Except String String :=
  if verb = "dev" then .ok "o2_dev.sh"
  else if verb = "dev_strict" then .ok "o2_dev_strict.sh"
  else if verb = "snapshot" then .ok "o2_snapshot.sh"
  else if verb = "commit" then .ok "o2_commit.sh"
  else if verb = "map" then .ok "o2_map.sh"
  else if verb = "proofpack" then .ok "o2_proofpack.sh"
  else if verb = "truth_map" then .ok "o2_truth_map.sh"
  else .error ("Unknown verb \x27" ++ verb ++ "\x27 (not wired in O2 verb map)")

/-- The `O2Key` enum. -/
inductive O2Key where
  | ProjectVerb (project : String) (verb : String)
  | PortStatus (port : String)
deriving DecidableEq

/-- `parse_o2_key`: split on `'.'`, demand exactly two parts (the Rust
`parts.len() != 2` early return is the wildcard match arm), trim each part,
special-case `port_status`, otherwise validate both tokens. -/
def parse_o2_key (key : String) : Except String O2Key :=
  match splitCh '.' key.data with
  | [p0, p1] =>
    let left := trimL p0
    let right := trimL p1
    if left = "port_status".data then
      if is_port_token right then .ok (O2Key.PortStatus (String.mk right))
      else .error ("Invalid port token: \x27" ++ String.mk right ++ "\x27")
    else if !is_safe_token left then
      .error ("Unsafe project token: \x27" ++ String.mk left ++ "\x27")
    else if !is_safe_token right then
      .error ("Unsafe verb token: \x27" ++ String.mk right ++ "\x27")
    else .ok (O2Key.ProjectVerb (String.mk left) (String.mk right))
  | _ =>
    .error ("Invalid key \x27" ++ key ++
      "\x27. Expected \x27<project>.<verb>\x27 OR \x27port_status.<port>\x27 (one dot).")

/-- The raw-string command literal of the `ProjectVerb` arm of
`run_o2_proxy`, written as the concatenation of its lines (`\x7b`/`\x7d`
are the brace characters of the Rust literal, `\x27` its apostrophes). -/
def projectCmd (script project : String) : String :=
  "\n" ++ "set -euo pipefail" ++ "\n" ++
  "O2_ROOT=\"$\x7bO2_ROOT:-$HOME/dev/o2\x7d\"" ++ "\n" ++
  "cd \"$\x7bO2_ROOT\x7d\"" ++ "\n" ++
  "bash \"scripts/" ++ script ++ "\" \"" ++ project ++ "\"" ++ "\n"

/-- The raw-string command literal of the `PortStatus` arm of
`run_o2_proxy`. -/
def portCmd (port : String) : String :=
  "\n" ++ "set -euo pipefail" ++ "\n" ++
  "O2_ROOT=\"$\x7bO2_ROOT:-$HOME/dev/o2\x7d\"" ++ "\n" ++
  "cd \"$\x7bO2_ROOT\x7d\"" ++ "\n" ++
  "bash \"scripts/o2_port_status_verb.sh\" \"" ++ port ++ "\"" ++ "\n"

/-- `run_o2_proxy` (and the thin `run_o2` wrapper): parse, look up the
verb, hand the constructed command to the capturing shell runner.  The
runner (`crate::shell::run_shell_output`) is an abstract parameter. -/
def run_o2_proxy (runner : String → Except String String) (key : String) :
    Except String String :=
  match parse_o2_key key with
  | .error e => .error e
  | .ok (O2Key.ProjectVerb project verb) =>
    match verb_to_script verb with
    | .error e => .error e
    | .ok script => runner (projectCmd script project)
  | .ok (O2Key.PortStatus port) => runner (portCmd port)

/-- The non-blank trimmed lines of a command string (the "after stripping
whitespace" view of a dispatched command). -/
def strippedLines (c : String) : List String :=
  (((splitCh '\n' c.data).map trimL).filter (fun l => !l.isEmpty)).map String.mk


/-! ### `src-tauri/src/commands/ports.rs` -/

/-- The `PortStatus` record returned by `port_status`. -/
structure PortStatusR where
  port : Nat
  listening : Bool
  pid : Option Nat
  cmd : Option String
  err : Option String
deriving DecidableEq

/-- `parse_pid_and_cmd_from_ss`: `pid` is `s.split("pid=").nth(1)` followed
by `take_while(is_ascii_digit)` and `parse::<u32>()`; `cmd` is
`s.split('"').nth(1)` trimmed and filtered non-empty. -/
def parse_pid_and_cmd_from_ss (s : String) : Option Nat × Option String :=
  let pid :=
    match nthSeg1 "pid=".data s.data with
    | none => none
    | some seg => parseU32 (seg.takeWhile Char.isDigit)
  let cmd :=
    match nthSeg1 ['\"'] s.data with
    | none => none
    | some seg =>
      let t := trimL seg
      if t.isEmpty then none else some (String.mk t)
  (pid, cmd)

/-- The probe command line built by `port_status` (note: `-ltnp`, no `H`;
`\x27` is the apostrophe of the Rust format string). -/
def ssCmdline (port : Nat) : String :=
  "ss -ltnp \x27sport = :" ++ toString port ++ "\x27 2>/dev/null || true"

/-- The body of `port_status` from the point where the probe result is in
hand: `unwrap_or_else(|e| format!("ERROR: {e}"))`, then the three-way
classification of the combined output. -/
def portStatusCore (port : Nat) (probe : Except String String) : PortStatusR :=
  let out : String :=
    match probe with
    | .ok o => o
    | .error e => "ERROR: " ++ e
  if trimL out.data = [] then
    ⟨port, false, none, none, none⟩
  else if containsSeq "not found".data out.data ||
      containsSeq "ERROR:".data out.data then
    ⟨port, false, none, none, some (String.mk (trimL out.data))⟩
  else
    let listening := (linesL out.data).any (fun l => containsSeq "LISTEN".data l)
    let pc := parse_pid_and_cmd_from_ss out
    ⟨port, listening, pc.1, pc.2, none⟩

/-- `port_status`: build the `ss` command line, run it through the
capturing shell runner (abstract parameter), classify the output.  Every
arm of the Rust function returns `Ok(...)`. -/
def port_status (runner : String → Except String String) (port : Nat) :
    Except String PortStatusR :=
  .ok (portStatusCore port (runner (ssCmdline port)))

/-! ### `src-tauri/src/commands/registry.rs` -/

/-- The `serde_json::Value` JSON tree (numbers abstracted to `Int`; none of
the verified claims inspects a numeric payload). -/
inductive Json where
  | null
  | bool (b : Bool)
  | num (n : Int)
  | str (s : String)
  | arr (elems : List Json)
  | obj (fields : List (String × Json))

/-- `read_json_array`: read the file, parse it, demand an array root.  The
filesystem read and the serde_json parser are abstract parameters. -/
def read_json_array (fsRead : String → Except String String)
    (parseJson : String → Except String Json) (path : String) :
    Except String (List Json) :=
  match fsRead path with
  | .error e => .error ("Failed to read " ++ path ++ ": " ++ e)
  | .ok s =>
    match parseJson s with
    | .error e => .error ("Invalid JSON in " ++ path ++ ": " ++ e)
    | .ok (Json.arr elems) => .ok elems
    | .ok _ => .error ("Registry at " ++ path ++ " is not a JSON array")

/-- `o2_list_projects`: resolve `HOME`, compose the registry path, demand a
regular file, read the array, pretty-print it.  `homeVar` models
`std::env::var("HOME")`, `isFile` models `Path::is_file`, `pretty` models
`serde_json::to_string_pretty`; the `println!` log line is a side effect
with no bearing on the returned value. -/
def o2_list_projects (homeVar : Except String String)
    (isFile : String → Bool) (fsRead : String → Except String String)
    (parseJson : String → Except String Json)
    (pretty : Json → Except String String) : Except String String :=
  match homeVar with
  | .error e => .error ("HOME not set: " ++ e)
  | .ok home =>
    let registry_path := home ++ "/dev/o2/registry/projects.json"
    if !isFile registry_path then
      .error ("O2 registry missing: " ++ registry_path)
    else
      match read_json_array fsRead parseJson registry_path with
      | .error e => .error e
      | .ok elems =>
        match pretty (Json.arr elems) with
        | .error e => .error ("Failed to serialize registry: " ++ e)
        | .ok s => .ok s

/-! ### Definitions following the specification's words (for comparison
with the code where a claim asserts a different behaviour) -/

/-- Modelled from the spec: the probe command line of §4.F, which carries
the `-H` flag (`ss -ltnpH ...`). -/
def ssCmdlineSpec (port : Nat) : String :=
  "ss -ltnpH \x27sport = :" ++ toString port ++ "\x27 2>/dev/null || true"

/-- Modelled from the spec: "`listening`: true iff at least one output
line is non-empty after trimming" (§4.F). -/
def specListening (out : String) : Bool :=
  (linesL out.data).any (fun l => !(trimL l).isEmpty)

/-- Modelled from the spec: "`cmd`: located by finding the substring `((`,
then the first pair of double-quoted characters after it; the value is the
content between those quotes (may be empty, in which case absent)" (§4.F). -/
def specSsCmd (s : String) : Option String :=
  match afterSeq "((".data s.data with
  | none => none
  | some rest =>
    match afterSeq ['\"'] rest with
    | none => none
    | some afterQuote =>
      if containsSeq ['\"'] afterQuote then
        let content := takeUntilSeq ['\"'] afterQuote
        if content.isEmpty then none else some (String.mk content)
      else none

/-! ### Helper lemmas -/

theorem strData_append (a b : String) : (a ++ b).data = a.data ++ b.data := by
  cases a; cases b; rfl

theorem splitCh_cons_self (c : Char) (l : List Char) :
    splitCh c (c :: l) = [] :: splitCh c l := by
  simp [splitCh]

theorem splitCh_append_of_noSep (c : Char) (xs ys : List Char)
    (h : ∀ a ∈ xs, a ≠ c) (z : List Char) (zs : List (List Char))
    (hys : splitCh c ys = z :: zs) :
    splitCh c (xs ++ ys) = (xs ++ z) :: zs := by
  induction xs with
  | nil => simpa using hys
  | cons x xs ih =>
    have hx : x ≠ c := h x (List.mem_cons_self _ _)
    have hrec := ih (fun a ha => h a (List.mem_cons_of_mem _ ha))
    simp only [List.cons_append, splitCh, if_neg hx, List.append_eq, hrec]

theorem dropWhile_cons_of_neg {p : Char → Bool} {x : Char} {l : List Char}
    (h : p x = false) : (x :: l).dropWhile p = x :: l := by
  simp [List.dropWhile, h]

theorem trimL_eq_self (l : List Char) (h : ∀ a ∈ l, isWS a = false) :
    trimL l = l := by
  have h1 : l.dropWhile isWS = l := by
    cases l with
    | nil => rfl
    | cons x xs => exact dropWhile_cons_of_neg (h x (List.mem_cons_self _ _))
  have h2 : l.reverse.dropWhile isWS = l.reverse := by
    cases hr : l.reverse with
    | nil => rfl
    | cons x xs =>
      have hx : x ∈ l := by
        have : x ∈ l.reverse := by rw [hr]; exact List.mem_cons_self _ _
        simpa using this
      exact dropWhile_cons_of_neg (h x hx)
  rw [trimL, h1, h2, List.reverse_reverse]

theorem mem_trimL_of_not_ws {a : Char} {l : List Char}
    (ha : a ∈ l) (hws : isWS a = false) : a ∈ trimL l := by
  have key : ∀ (m : List Char), a ∈ m → a ∈ m.dropWhile isWS := by
    intro m hm
    induction m with
    | nil => cases hm
    | cons x xs ih =>
      by_cases hx : isWS x = true
      · rcases List.mem_cons.mp hm with rfl | hmem
        · exact absurd hx (by simp [hws])
        · simpa [List.dropWhile, hx] using ih hmem
      · have hxf : isWS x = false := by simpa using hx
        simpa [List.dropWhile, hxf] using hm
  have s1 : a ∈ l.dropWhile isWS := key l ha
  have s2 : a ∈ (l.dropWhile isWS).reverse := by simpa using s1
  have s3 : a ∈ ((l.dropWhile isWS).reverse).dropWhile isWS := key _ s2
  simpa [trimL] using s3

theorem trimL_ne_nil_of_mem {a : Char} {l : List Char}
    (ha : a ∈ l) (hws : isWS a = false) : trimL l ≠ [] := by
  intro h
  exact absurd (h ▸ mem_trimL_of_not_ws ha hws) (List.not_mem_nil a)

theorem startsSeq_self_append (pat rest : List Char) :
    startsSeq pat (pat ++ rest) = true := by
  induction pat with
  | nil => rfl
  | cons x xs ih => simp [startsSeq, ih]

theorem containsSeq_of_startsSeq {pat l : List Char}
    (h : startsSeq pat l = true) : containsSeq pat l = true := by
  cases l with
  | nil => simp [containsSeq, afterSeq, h]
  | cons c cs => simp [containsSeq, afterSeq, h]

theorem containsSeq_eq_false_iff (pat l : List Char) :
    containsSeq pat l = false ↔ afterSeq pat l = none := by
  unfold containsSeq
  cases afterSeq pat l <;> simp

theorem isWS_eq_false_of_safe_char {c : Char}
    (h : (('a' ≤ c && c ≤ 'z') || ('0' ≤ c && c ≤ '9') || c = '_' || c = '-')
      = true) : isWS c = false := by
  cases hws : isWS c
  · rfl
  · exfalso
    have h4 : ((c = ' ' ∨ c = '\t') ∨ c = '\n') ∨ c = '\r' := by
      simpa [isWS] using hws
    rcases h4 with ((h1 | h1) | h1) | h1 <;> subst h1 <;> revert h <;> decide

theorem isWS_eq_false_of_digit_char {c : Char}
    (h : ('0' ≤ c && c ≤ '9') = true) : isWS c = false := by
  cases hws : isWS c
  · rfl
  · exfalso
    have h4 : ((c = ' ' ∨ c = '\t') ∨ c = '\n') ∨ c = '\r' := by
      simpa [isWS] using hws
    rcases h4 with ((h1 | h1) | h1) | h1 <;> subst h1 <;> revert h <;> decide

theorem ne_newline_of_not_ws {c : Char} (h : isWS c = false) : c ≠ '\n' := by
  intro e
  subst e
  revert h
  decide

theorem is_safe_token_not_ws {l : List Char} (h : is_safe_token l = true) :
    ∀ a ∈ l, isWS a = false := by
  intro a ha
  have hall := (Bool.and_eq_true _ _ |>.mp h).2
  rw [List.all_eq_true] at hall
  exact isWS_eq_false_of_safe_char (hall a ha)

theorem is_port_token_not_ws {l : List Char} (h : is_port_token l = true) :
    ∀ a ∈ l, isWS a = false := by
  intro a ha
  have hall := (Bool.and_eq_true _ _ |>.mp h).2
  rw [List.all_eq_true] at hall
  exact isWS_eq_false_of_digit_char (hall a ha)

theorem parse_ok_ProjectVerb {key : String} {p v : String}
    (h : parse_o2_key key = .ok (O2Key.ProjectVerb p v)) :
    is_safe_token p.data = true ∧ is_safe_token v.data = true := by
  unfold parse_o2_key at h
  rcases hs : splitCh '.' key.data with _ | ⟨a, _ | ⟨b, _ | ⟨c, rest⟩⟩⟩ <;>
    rw [hs] at h <;> dsimp only at h
  · cases h
  · cases h
  · split_ifs at h with h1 h2 h3 h4 <;> cases h
    constructor
    · simpa using h3
    · simpa using h4
  · cases h

theorem parse_ok_PortStatus {key : String} {pt : String}
    (h : parse_o2_key key = .ok (O2Key.PortStatus pt)) :
    is_port_token pt.data = true := by
  unfold parse_o2_key at h
  rcases hs : splitCh '.' key.data with _ | ⟨a, _ | ⟨b, _ | ⟨c, rest⟩⟩⟩ <;>
    rw [hs] at h <;> dsimp only at h
  · cases h
  · cases h
  · split_ifs at h with h1 h2 h3 h4 <;> cases h
    simpa using h2
  · cases h

theorem trimL_eq_self_of_ends {x y : Char} (mid : List Char)
    (hx : isWS x = false) (hy : isWS y = false) :
    trimL (x :: (mid ++ [y])) = x :: (mid ++ [y]) := by
  unfold trimL
  rw [dropWhile_cons_of_neg hx]
  have hrev : (x :: (mid ++ [y])).reverse = y :: (mid.reverse ++ [x]) := by
    simp
  rw [hrev, dropWhile_cons_of_neg hy, ← hrev, List.reverse_reverse]

theorem strippedLines_joined (s p : String)
    (hs : ∀ a ∈ s.data, isWS a = false)
    (hp : ∀ a ∈ p.data, isWS a = false) :
    strippedLines ("\n" ++ "set -euo pipefail" ++ "\n" ++
      "O2_ROOT=\"$\x7bO2_ROOT:-$HOME/dev/o2\x7d\"" ++ "\n" ++
      "cd \"$\x7bO2_ROOT\x7d\"" ++ "\n" ++
      "bash \"scripts/" ++ s ++ "\" \"" ++ p ++ "\"" ++ "\n") =
    ["set -euo pipefail", "O2_ROOT=\"$\x7bO2_ROOT:-$HOME/dev/o2\x7d\"",
     "cd \"$\x7bO2_ROOT\x7d\"",
     "bash \"scripts/" ++ s ++ "\" \"" ++ p ++ "\""] := by
  have hs' : ∀ a ∈ s.data, a ≠ '\n' := fun a ha => ne_newline_of_not_ws (hs a ha)
  have hp' : ∀ a ∈ p.data, a ≠ '\n' := fun a ha => ne_newline_of_not_ws (hp a ha)
  have hn : "\n".data = ['\n'] := rfl
  have hq : "\"".data = ['\"'] := rfl
  have hdata :
      ("\n" ++ "set -euo pipefail" ++ "\n" ++
        "O2_ROOT=\"$\x7bO2_ROOT:-$HOME/dev/o2\x7d\"" ++ "\n" ++
        "cd \"$\x7bO2_ROOT\x7d\"" ++ "\n" ++
        "bash \"scripts/" ++ s ++ "\" \"" ++ p ++ "\"" ++ "\n").data
      = '\n' :: ("set -euo pipefail".data ++
          '\n' :: ("O2_ROOT=\"$\x7bO2_ROOT:-$HOME/dev/o2\x7d\"".data ++
          '\n' :: ("cd \"$\x7bO2_ROOT\x7d\"".data ++
          '\n' :: ("bash \"scripts/".data ++
            (s.data ++ ("\" \"".data ++ (p.data ++ ['\"', '\n']))))))) := by
    simp [strData_append, hn, hq, List.append_assoc]
  have t1 : splitCh '\n' (p.data ++ ['\"', '\n']) = (p.data ++ ['\"']) :: [[]] :=
    splitCh_append_of_noSep '\n' p.data ['\"', '\n'] hp' ['\"'] [[]] (by decide)
  have t2 : splitCh '\n' ("\" \"".data ++ (p.data ++ ['\"', '\n']))
      = ("\" \"".data ++ (p.data ++ ['\"'])) :: [[]] :=
    splitCh_append_of_noSep '\n' _ _ (by decide) _ _ t1
  have t3 : splitCh '\n' (s.data ++ ("\" \"".data ++ (p.data ++ ['\"', '\n'])))
      = (s.data ++ ("\" \"".data ++ (p.data ++ ['\"']))) :: [[]] :=
    splitCh_append_of_noSep '\n' _ _ hs' _ _ t2
  have t4 : splitCh '\n' ("bash \"scripts/".data ++
        (s.data ++ ("\" \"".data ++ (p.data ++ ['\"', '\n']))))
      = ("bash \"scripts/".data ++
        (s.data ++ ("\" \"".data ++ (p.data ++ ['\"'])))) :: [[]] :=
    splitCh_append_of_noSep '\n' _ _ (by decide) _ _ t3
  have t5 : splitCh '\n' ('\n' :: ("bash \"scripts/".data ++
        (s.data ++ ("\" \"".data ++ (p.data ++ ['\"', '\n'])))))
      = [] :: ("bash \"scripts/".data ++
        (s.data ++ ("\" \"".data ++ (p.data ++ ['\"'])))) :: [[]] := by
    rw [splitCh_cons_self, t4]
  have t6 := splitCh_append_of_noSep '\n' "cd \"$\x7bO2_ROOT\x7d\"".data _
    (by decide) _ _ t5
  rw [List.append_nil] at t6
  have t7 : splitCh '\n' ('\n' :: ("cd \"$\x7bO2_ROOT\x7d\"".data ++
        '\n' :: ("bash \"scripts/".data ++
          (s.data ++ ("\" \"".data ++ (p.data ++ ['\"', '\n']))))))
      = [] :: "cd \"$\x7bO2_ROOT\x7d\"".data ::
        ("bash \"scripts/".data ++
          (s.data ++ ("\" \"".data ++ (p.data ++ ['\"'])))) :: [[]] := by
    rw [splitCh_cons_self, t6]
  have t8 := splitCh_append_of_noSep '\n'
    "O2_ROOT=\"$\x7bO2_ROOT:-$HOME/dev/o2\x7d\"".data _ (by decide) _ _ t7
  rw [List.append_nil] at t8
  have t9 : splitCh '\n' ('\n' ::
        ("O2_ROOT=\"$\x7bO2_ROOT:-$HOME/dev/o2\x7d\"".data ++
        '\n' :: ("cd \"$\x7bO2_ROOT\x7d\"".data ++
        '\n' :: ("bash \"scripts/".data ++
          (s.data ++ ("\" \"".data ++ (p.data ++ ['\"', '\n'])))))))
      = [] :: "O2_ROOT=\"$\x7bO2_ROOT:-$HOME/dev/o2\x7d\"".data ::
        "cd \"$\x7bO2_ROOT\x7d\"".data ::
        ("bash \"scripts/".data ++
          (s.data ++ ("\" \"".data ++ (p.data ++ ['\"'])))) :: [[]] := by
    rw [splitCh_cons_self, t8]
  have t10 := splitCh_append_of_noSep '\n' "set -euo pipefail".data _
    (by decide) _ _ t9
  rw [List.append_nil] at t10
  have t11 : splitCh '\n' ('\n' :: ("set -euo pipefail".data ++
        '\n' :: ("O2_ROOT=\"$\x7bO2_ROOT:-$HOME/dev/o2\x7d\"".data ++
        '\n' :: ("cd \"$\x7bO2_ROOT\x7d\"".data ++
        '\n' :: ("bash \"scripts/".data ++
          (s.data ++ ("\" \"".data ++ (p.data ++ ['\"', '\n']))))))))
      = [] :: "set -euo pipefail".data ::
        "O2_ROOT=\"$\x7bO2_ROOT:-$HOME/dev/o2\x7d\"".data ::
        "cd \"$\x7bO2_ROOT\x7d\"".data ::
        ("bash \"scripts/".data ++
          (s.data ++ ("\" \"".data ++ (p.data ++ ['\"'])))) :: [[]] := by
    rw [splitCh_cons_self, t10]
  have hshape : "bash \"scripts/".data ++
        (s.data ++ ("\" \"".data ++ (p.data ++ ['\"'])))
      = 'b' :: (("ash \"scripts/".data ++
        (s.data ++ ("\" \"".data ++ p.data))) ++ ['\"']) := by
    have hb : "bash \"scripts/".data = 'b' :: "ash \"scripts/".data := rfl
    rw [hb]
    simp [List.append_assoc]
  have e0 : trimL ([] : List Char) = [] := rfl
  have e1 : trimL "set -euo pipefail".data = "set -euo pipefail".data := by decide
  have e2 : trimL "O2_ROOT=\"$\x7bO2_ROOT:-$HOME/dev/o2\x7d\"".data
      = "O2_ROOT=\"$\x7bO2_ROOT:-$HOME/dev/o2\x7d\"".data := by decide
  have e3 : trimL "cd \"$\x7bO2_ROOT\x7d\"".data
      = "cd \"$\x7bO2_ROOT\x7d\"".data := by decide
  have e4 : trimL ("bash \"scripts/".data ++
        (s.data ++ ("\" \"".data ++ (p.data ++ ['\"']))))
      = "bash \"scripts/".data ++
        (s.data ++ ("\" \"".data ++ (p.data ++ ['\"']))) := by
    rw [hshape, trimL_eq_self_of_ends _ (by decide) (by decide)]
  have f4 : (("bash \"scripts/".data ++
        (s.data ++ ("\" \"".data ++ (p.data ++ ['\"'])))).isEmpty) = false := by
    rw [hshape]
    rfl
  have g4 : String.mk ("bash \"scripts/".data ++
        (s.data ++ ("\" \"".data ++ (p.data ++ ['\"']))))
      = "bash \"scripts/" ++ s ++ "\" \"" ++ p ++ "\"" := by
    have hr : ("bash \"scripts/" ++ s ++ "\" \"" ++ p ++ "\"").data
        = "bash \"scripts/".data ++
          (s.data ++ ("\" \"".data ++ (p.data ++ ['\"']))) := by
      simp [strData_append, hq, List.append_assoc]
    rw [← hr]
  unfold strippedLines
  rw [hdata, t11]
  simp only [List.map_cons, List.map_nil, e0, e1, e2, e3, e4]
  simp only [List.filter_cons, List.filter_nil]
  norm_num [List.isEmpty_nil, f4, e1, e2, e3]
  exact g4

theorem verb_script_not_ws {v s : String} (h : verb_to_script v = .ok s) :
    ∀ a ∈ s.data, isWS a = false := by
  unfold verb_to_script at h
  split_ifs at h <;> cases h <;> decide

/-! ### Claim theorems -/

/-- C1: for every key the parser accepts as `ProjectVerb {p, v}` whose verb
is wired to script `s`, `run_o2` hands the capturing shell runner a command
whose whitespace-stripped lines are exactly the strict-mode preamble, the
O2-root resolution (`O2_ROOT` if set, else `$HOME/dev/o2`), a `cd` to that
root, and `bash "scripts/<s>" "<p>"`; and for every key accepted as
`PortStatus {port}`, the same with the fixed script
`o2_port_status_verb.sh` and the port token as the single argument. -/
theorem run_o2_dispatch_shape :
    (∀ (runner : String → Except String String) (key p v s : String),
      parse_o2_key key = .ok (O2Key.ProjectVerb p v) →
      verb_to_script v = .ok s →
      run_o2_proxy runner key = runner (projectCmd s p) ∧
      strippedLines (projectCmd s p) =
        ["set -euo pipefail",
         "O2_ROOT=\"$\x7bO2_ROOT:-$HOME/dev/o2\x7d\"",
         "cd \"$\x7bO2_ROOT\x7d\"",
         "bash \"scripts/" ++ s ++ "\" \"" ++ p ++ "\""]) ∧
    (∀ (runner : String → Except String String) (key pt : String),
      parse_o2_key key = .ok (O2Key.PortStatus pt) →
      run_o2_proxy runner key = runner (portCmd pt) ∧
      strippedLines (portCmd pt) =
        ["set -euo pipefail",
         "O2_ROOT=\"$\x7bO2_ROOT:-$HOME/dev/o2\x7d\"",
         "cd \"$\x7bO2_ROOT\x7d\"",
         "bash \"scripts/o2_port_status_verb.sh\" \"" ++ pt ++ "\""]) := by
  constructor
  · intro runner key p v s hk hv
    constructor
    · unfold run_o2_proxy
      rw [hk]
      dsimp only
      rw [hv]
    · have hpw := is_safe_token_not_ws (parse_ok_ProjectVerb hk).1
      have hsw := verb_script_not_ws hv
      exact strippedLines_joined s p hsw hpw
  · intro runner key pt hk
    constructor
    · unfold run_o2_proxy
      rw [hk]
    · have hqw := is_port_token_not_ws (parse_ok_PortStatus hk)
      have hsw : ∀ a ∈ ("o2_port_status_verb.sh" : String).data, isWS a = false := by
        decide
      exact strippedLines_joined "o2_port_status_verb.sh" pt hsw hqw

/-- Witness for C1: concrete dispatches of `tbis.snapshot` and
`port_status.3000` through an identity runner. -/
theorem run_o2_dispatch_shape_witness :
    run_o2_proxy Except.ok "tbis.snapshot"
      = Except.ok (projectCmd "o2_snapshot.sh" "tbis") ∧
    run_o2_proxy Except.ok "port_status.3000"
      = Except.ok (portCmd "3000") :=
  ⟨(run_o2_dispatch_shape.1 Except.ok "tbis.snapshot" "tbis" "snapshot"
      "o2_snapshot.sh" (by rfl) (by rfl)).1,
   (run_o2_dispatch_shape.2 Except.ok "port_status.3000" "3000" (by rfl)).1⟩

/-- C2: the key parser is total — for every input it splits on `'.'`, fails
with the bad-key-shape error (echoing the whole key) unless there are
exactly two parts, trims each part, and then yields the `PortStatus`
variant, the `ProjectVerb` variant, or an unsafe-token error echoing the
offending token; no other outcome is possible. -/
theorem parse_o2_key_totality (key : String) :
    ((splitCh '.' key.data).length ≠ 2 →
      parse_o2_key key = .error ("Invalid key \x27" ++ key ++
        "\x27. Expected \x27<project>.<verb>\x27 OR \x27port_status.<port>\x27 (one dot).")) ∧
    (∀ p0 p1, splitCh '.' key.data = [p0, p1] →
      (trimL p0 = "port_status".data →
        (is_port_token (trimL p1) = true →
          parse_o2_key key = .ok (O2Key.PortStatus (String.mk (trimL p1)))) ∧
        (is_port_token (trimL p1) = false →
          parse_o2_key key =
            .error ("Invalid port token: \x27" ++ String.mk (trimL p1) ++ "\x27"))) ∧
      (trimL p0 ≠ "port_status".data →
        (is_safe_token (trimL p0) = false →
          parse_o2_key key =
            .error ("Unsafe project token: \x27" ++ String.mk (trimL p0) ++ "\x27")) ∧
        (is_safe_token (trimL p0) = true → is_safe_token (trimL p1) = false →
          parse_o2_key key =
            .error ("Unsafe verb token: \x27" ++ String.mk (trimL p1) ++ "\x27")) ∧
        (is_safe_token (trimL p0) = true → is_safe_token (trimL p1) = true →
          parse_o2_key key =
            .ok (O2Key.ProjectVerb (String.mk (trimL p0)) (String.mk (trimL p1)))))) := by
  constructor
  · intro hlen
    unfold parse_o2_key
    rcases hs : splitCh '.' key.data with _ | ⟨a, _ | ⟨b, _ | ⟨c, rest⟩⟩⟩
    · rfl
    · rfl
    · rw [hs] at hlen
      simp at hlen
    · rfl
  · intro p0 p1 hs
    unfold parse_o2_key
    rw [hs]
    dsimp only
    refine ⟨fun hps => ⟨fun hpt => ?_, fun hpt => ?_⟩,
      fun hns => ⟨fun hsf => ?_, fun h1 h2 => ?_, fun h1 h2 => ?_⟩⟩
    · simp [hps, hpt]
    · simp [hps, hpt]
    · simp [hns, hsf]
    · simp [hns, h1, h2]
    · simp [hns, h1, h2]

/-- Witness for C2: the key `a.b` takes the `ProjectVerb` branch. -/
theorem parse_o2_key_totality_witness :
    parse_o2_key "a.b" = .ok (O2Key.ProjectVerb "a" "b") :=
  (((parse_o2_key_totality "a.b").2 "a".data "b".data (by decide)).2
    (by decide)).2.2 (by decide) (by decide)

/-- C3: dispatch proceeds past parsing exactly for the seven wired verbs,
each mapped to its fixed script filename; any other verb yields the
"not wired" failure naming the verb verbatim, which `run_o2` propagates. -/
theorem verb_closure :
    (verb_to_script "dev" = .ok "o2_dev.sh" ∧
     verb_to_script "dev_strict" = .ok "o2_dev_strict.sh" ∧
     verb_to_script "snapshot" = .ok "o2_snapshot.sh" ∧
     verb_to_script "commit" = .ok "o2_commit.sh" ∧
     verb_to_script "map" = .ok "o2_map.sh" ∧
     verb_to_script "proofpack" = .ok "o2_proofpack.sh" ∧
     verb_to_script "truth_map" = .ok "o2_truth_map.sh") ∧
    (∀ v : String, (∃ s, verb_to_script v = .ok s) ↔
      (v = "dev" ∨ v = "dev_strict" ∨ v = "snapshot" ∨ v = "commit" ∨
       v = "map" ∨ v = "proofpack" ∨ v = "truth_map")) ∧
    (∀ v : String,
      v ≠ "dev" → v ≠ "dev_strict" → v ≠ "snapshot" → v ≠ "commit" →
      v ≠ "map" → v ≠ "proofpack" → v ≠ "truth_map" →
      verb_to_script v =
        .error ("Unknown verb \x27" ++ v ++ "\x27 (not wired in O2 verb map)")) ∧
    (∀ (runner : String → Except String String) (key p v : String),
      parse_o2_key key = .ok (O2Key.ProjectVerb p v) →
      ∀ e, verb_to_script v = .error e →
        run_o2_proxy runner key = .error e) := by
  refine ⟨⟨rfl, rfl, rfl, rfl, rfl, rfl, rfl⟩, ?_, ?_, ?_⟩
  · intro v
    constructor
    · rintro ⟨s, hsv⟩
      unfold verb_to_script at hsv
      split_ifs at hsv with h1 h2 h3 h4 h5 h6 h7
      · exact Or.inl h1
      · exact Or.inr (Or.inl h2)
      · exact Or.inr (Or.inr (Or.inl h3))
      · exact Or.inr (Or.inr (Or.inr (Or.inl h4)))
      · exact Or.inr (Or.inr (Or.inr (Or.inr (Or.inl h5))))
      · exact Or.inr (Or.inr (Or.inr (Or.inr (Or.inr (Or.inl h6)))))
      · exact Or.inr (Or.inr (Or.inr (Or.inr (Or.inr (Or.inr h7)))))
    · rintro (rfl | rfl | rfl | rfl | rfl | rfl | rfl) <;> exact ⟨_, rfl⟩
  · intro v h1 h2 h3 h4 h5 h6 h7
    unfold verb_to_script
    rw [if_neg h1, if_neg h2, if_neg h3, if_neg h4, if_neg h5, if_neg h6,
      if_neg h7]
  · intro runner key p v hk e hv
    unfold run_o2_proxy
    rw [hk]
    dsimp only
    rw [hv]

/-- Witness for C3: the unwired verb `deploy` fails by name, end to end. -/
theorem verb_closure_witness :
    verb_to_script "deploy"
      = .error ("Unknown verb \x27deploy\x27 (not wired in O2 verb map)") ∧
    run_o2_proxy Except.ok "tbis.deploy"
      = .error ("Unknown verb \x27deploy\x27 (not wired in O2 verb map)") :=
  ⟨verb_closure.2.2.1 "deploy" (by decide) (by decide) (by decide) (by decide)
      (by decide) (by decide) (by decide),
   verb_closure.2.2.2 Except.ok "tbis.deploy" "tbis" "deploy" (by rfl) _
      (by rfl)⟩

/-- C5: `port_status` always returns a record (`Ok` in every arm); a shell
runner failure is down-converted into the record's `err` field (with
`listening = false` and absent pid/cmd) instead of being propagated. -/
theorem port_status_total_downconvert :
    (∀ (runner : String → Except String String) (port : Nat),
      ∃ r, port_status runner port = .ok r) ∧
    (∀ (runner : String → Except String String) (port : Nat) (e : String),
      runner (ssCmdline port) = .error e →
      port_status runner port =
        .ok ⟨port, false, none, none,
          some (String.mk (trimL ("ERROR: " ++ e).data))⟩) := by
  constructor
  · intro runner port
    exact ⟨_, rfl⟩
  · intro runner port e hre
    unfold port_status
    rw [hre]
    unfold portStatusCore
    dsimp only
    have hE : 'E' ∈ ("ERROR: " ++ e).data := by
      rw [strData_append]
      exact List.mem_append_left _ (by decide)
    have hne : trimL ("ERROR: " ++ e).data ≠ [] :=
      trimL_ne_nil_of_mem hE (by decide)
    have hct : containsSeq "ERROR:".data ("ERROR: " ++ e).data = true := by
      apply containsSeq_of_startsSeq
      rw [strData_append]
      have h1 : "ERROR: ".data = "ERROR:".data ++ [' '] := rfl
      rw [h1, List.append_assoc]
      exact startsSeq_self_append _ _
    have hcond : (containsSeq "not found".data ("ERROR: " ++ e).data ||
        containsSeq "ERROR:".data ("ERROR: " ++ e).data) = true := by
      rw [Bool.or_eq_true]
      exact Or.inr hct
    rw [if_neg hne, if_pos hcond]

/-- Witness for C5: a runner that always fails still yields a record. -/
theorem port_status_total_downconvert_witness :
    port_status (fun _ => Except.error "boom") 5173
      = .ok ⟨5173, false, none, none, some "ERROR: boom"⟩ :=
  port_status_total_downconvert.2 (fun _ => Except.error "boom") 5173 "boom" rfl

/-- C10: whenever the probe output is non-empty after trimming and contains
`ERROR:` or `not found` anywhere, `port_status` reports a failed probe
(`listening = false`, `err` set to the trimmed output, pid/cmd absent),
even when the output also contains a live LISTEN line. -/
theorem port_status_error_substring_precedence :
    ∀ (port : Nat) (out : String),
      trimL out.data ≠ [] →
      (containsSeq "ERROR:".data out.data = true ∨
       containsSeq "not found".data out.data = true) →
      portStatusCore port (.ok out) =
        ⟨port, false, none, none, some (String.mk (trimL out.data))⟩ := by
  intro port out hne hc
  unfold portStatusCore
  dsimp only
  have hcond : (containsSeq "not found".data out.data ||
      containsSeq "ERROR:".data out.data) = true := by
    rcases hc with h | h <;> simp [h]
  rw [if_neg hne, if_pos hcond]

/-- Witness for C10: an output carrying both a LISTEN line and an
`ERROR:` marker is classified as a failed probe. -/
theorem port_status_error_substring_precedence_witness :
    portStatusCore 3000 (.ok "LISTEN ERROR: odd")
      = ⟨3000, false, none, none, some "LISTEN ERROR: odd"⟩ :=
  port_status_error_substring_precedence 3000 "LISTEN ERROR: odd"
    (by decide) (Or.inl (by decide))

/-- C4 counterexample: on the probe output
`users:(("node",pid=12345,fd=20))` the record has `listening = false`
(no line contains `LISTEN`) and yet `pid`/`cmd` are present — the
extractors are not gated on `listening`. -/
theorem port_status_gating_cex :
    portStatusCore 80 (.ok "users:((\"node\",pid=12345,fd=20))")
      = ⟨80, false, some 12345, some "node", none⟩ ∧
    (portStatusCore 80 (.ok "users:((\"node\",pid=12345,fd=20))")).listening
      = false ∧
    (portStatusCore 80 (.ok "users:((\"node\",pid=12345,fd=20))")).pid
      ≠ none :=
  ⟨by rfl, by rfl, by decide⟩

/-- C4 amended: `pid`/`cmd` are absent when the probe output is empty after
trimming or classified as a probe error; otherwise both extractors are
applied to the output unconditionally — regardless of `listening`. -/
theorem port_status_pid_cmd_amended :
    ∀ (port : Nat) (out : String),
      (trimL out.data = [] →
        portStatusCore port (.ok out) = ⟨port, false, none, none, none⟩) ∧
      (trimL out.data ≠ [] →
        (containsSeq "not found".data out.data ||
         containsSeq "ERROR:".data out.data) = true →
        portStatusCore port (.ok out) =
          ⟨port, false, none, none, some (String.mk (trimL out.data))⟩) ∧
      (trimL out.data ≠ [] →
        (containsSeq "not found".data out.data ||
         containsSeq "ERROR:".data out.data) = false →
        (portStatusCore port (.ok out)).pid
            = (parse_pid_and_cmd_from_ss out).1 ∧
        (portStatusCore port (.ok out)).cmd
            = (parse_pid_and_cmd_from_ss out).2) := by
  intro port out
  refine ⟨fun h0 => ?_, fun hne hc => ?_, fun hne hc => ?_⟩
  · unfold portStatusCore
    dsimp only
    rw [if_pos h0]
  · unfold portStatusCore
    dsimp only
    rw [if_neg hne, if_pos hc]
  · unfold portStatusCore
    dsimp only
    rw [if_neg hne, if_neg (by simp [hc])]
    exact ⟨rfl, rfl⟩

/-- Witness for C4 (amended): a LISTEN output where both extractors fire. -/
theorem port_status_pid_cmd_amended_witness :
    (portStatusCore 8080 (.ok "LISTEN users:((\"nginx\",pid=77,fd=6))")).pid
      = (parse_pid_and_cmd_from_ss "LISTEN users:((\"nginx\",pid=77,fd=6))").1 ∧
    (portStatusCore 8080 (.ok "LISTEN users:((\"nginx\",pid=77,fd=6))")).cmd
      = (parse_pid_and_cmd_from_ss "LISTEN users:((\"nginx\",pid=77,fd=6))").2 :=
  (port_status_pid_cmd_amended 8080 "LISTEN users:((\"nginx\",pid=77,fd=6))").2.2
    (by decide) (by decide)

/-- C6 counterexample: the probe command line has no `-H` flag (it differs
from the spec's `ss -ltnpH ...`), and an output that is non-empty after
trimming (so the spec says `listening = true`) yields `listening = false`
when no line contains `LISTEN`. -/
theorem ss_probe_shape_cex :
    ssCmdline 3000 ≠ ssCmdlineSpec 3000 ∧
    ssCmdline 3000 = "ss -ltnp \x27sport = :3000\x27 2>/dev/null || true" ∧
    specListening "foo" = true ∧
    (portStatusCore 3000 (.ok "foo")).listening = false :=
  ⟨by decide, by rfl, by decide, by rfl⟩

/-- C6 amended: `port_status` hands the runner exactly
`ss -ltnp 'sport = :<p>' 2>/dev/null || true` (no `-H`), and `listening` is
true iff the output is non-empty after trimming, free of the error
substrings, and has at least one line containing `LISTEN`. -/
theorem ss_probe_shape_amended :
    (∀ (runner : String → Except String String) (port : Nat),
      port_status runner port
        = .ok (portStatusCore port (runner (ssCmdline port)))) ∧
    (∀ port : Nat, ssCmdline port
      = "ss -ltnp \x27sport = :" ++ toString port ++
        "\x27 2>/dev/null || true") ∧
    (∀ (port : Nat) (out : String),
      ((portStatusCore port (.ok out)).listening = true ↔
        (trimL out.data ≠ [] ∧
         (containsSeq "not found".data out.data ||
          containsSeq "ERROR:".data out.data) = false ∧
         (linesL out.data).any (fun l => containsSeq "LISTEN".data l)
           = true))) := by
  refine ⟨fun _ _ => rfl, fun _ => rfl, ?_⟩
  intro port out
  unfold portStatusCore
  dsimp only
  by_cases h0 : trimL out.data = []
  · rw [if_pos h0]
    simp [h0]
  · rw [if_neg h0]
    by_cases hc : (containsSeq "not found".data out.data ||
        containsSeq "ERROR:".data out.data) = true
    · rw [if_pos hc]
      simp [h0, hc]
    · rw [if_neg hc]
      have hcf : (containsSeq "not found".data out.data ||
          containsSeq "ERROR:".data out.data) = false := by
        simpa using hc
      simp [h0, hcf]

/-- Witness for C6 (amended): a bare `LISTEN` output is listening. -/
theorem ss_probe_shape_amended_witness :
    (portStatusCore 4321 (.ok "LISTEN")).listening = true :=
  (ss_probe_shape_amended.2.2 4321 "LISTEN").mpr
    ⟨by decide, by decide, by decide⟩

/-- C7 counterexample: the `cmd` extractor does not use the `((` anchor the
spec describes — on the input `"hi"` (a quoted token with no `((`) the code
extracts `hi` while the spec's extractor is absent. -/
theorem ss_extract_laws_cex :
    (parse_pid_and_cmd_from_ss "\"hi\"").2 = some "hi" ∧
    specSsCmd "\"hi\"" = none ∧
    (parse_pid_and_cmd_from_ss "\"hi\"").2 ≠ specSsCmd "\"hi\"" :=
  ⟨by rfl, by rfl, by decide⟩

/-- C7 amended: the literal laws hold (the `ss` snippet gives
`pid = 12345`, `cmd = "node"`; the empty string gives absent/absent and a
non-listening record; `pid=` with no digits gives an absent pid); `pid` is
additionally absent when the digit run overflows `u32`; `cmd` is anchored
at the first double quote of the whole string (not at `((`), and both
extractors are absent when their anchor substring is missing. -/
theorem ss_extract_laws_amended :
    (parse_pid_and_cmd_from_ss "users:((\"node\",pid=12345,fd=20))"
      = (some 12345, some "node")) ∧
    (parse_pid_and_cmd_from_ss "" = (none, none)) ∧
    (∀ port : Nat, portStatusCore port (.ok "")
      = ⟨port, false, none, none, none⟩) ∧
    ((parse_pid_and_cmd_from_ss "pid=x").1 = none) ∧
    ((parse_pid_and_cmd_from_ss "pid=4294967296").1 = none) ∧
    ((parse_pid_and_cmd_from_ss "pid=4294967295").1 = some 4294967295) ∧
    (∀ s : String, containsSeq "pid=".data s.data = false →
      (parse_pid_and_cmd_from_ss s).1 = none) ∧
    (∀ s : String, containsSeq ['\"'] s.data = false →
      (parse_pid_and_cmd_from_ss s).2 = none) := by
  refine ⟨by rfl, by rfl, fun port => by rfl, by rfl, by rfl, by rfl,
    ?_, ?_⟩
  · intro s h
    rw [containsSeq_eq_false_iff] at h
    simp [parse_pid_and_cmd_from_ss, nthSeg1, h]
  · intro s h
    rw [containsSeq_eq_false_iff] at h
    simp [parse_pid_and_cmd_from_ss, nthSeg1, h]

/-- Witness for C7 (amended): a string with neither anchor has both
extractors absent. -/
theorem ss_extract_laws_amended_witness :
    (parse_pid_and_cmd_from_ss "zzz").1 = none ∧
    (parse_pid_and_cmd_from_ss "zzz").2 = none :=
  ⟨ss_extract_laws_amended.2.2.2.2.2.2.1 "zzz" (by decide),
   ss_extract_laws_amended.2.2.2.2.2.2.2 "zzz" (by decide)⟩

/-- C8 counterexample: the parser accepts `port_status.70000` (value
70000 > 65535) and `port_status.0` (value 0 < 1); no 1–65535 range is
enforced on accepted port tokens. -/
theorem port_token_range_cex :
    parse_o2_key "port_status.70000" = .ok (O2Key.PortStatus "70000") ∧
    digitsVal "70000".data = 70000 ∧ ¬(digitsVal "70000".data ≤ 65535) ∧
    parse_o2_key "port_status.0" = .ok (O2Key.PortStatus "0") ∧
    digitsVal "0".data = 0 ∧ ¬(1 ≤ digitsVal "0".data) :=
  ⟨by rfl, by decide, by decide, by rfl, by decide, by decide⟩

/-- C8 amended: every key accepted as the `PortStatus` variant carries a
non-empty string of ASCII digits; the numeric range 1–65535 is not
enforced. -/
theorem port_token_amended :
    ∀ (key pt : String),
      parse_o2_key key = .ok (O2Key.PortStatus pt) →
      pt.data ≠ [] ∧ ∀ c ∈ pt.data, ('0' ≤ c ∧ c ≤ '9') := by
  intro key pt h
  have hp := parse_ok_PortStatus h
  unfold is_port_token at hp
  have h1 := (Bool.and_eq_true _ _ |>.mp hp).1
  have h2 := (Bool.and_eq_true _ _ |>.mp hp).2
  constructor
  · intro he
    rw [he] at h1
    exact absurd h1 (by decide)
  · intro c hc
    have hcc := (List.all_eq_true.mp h2) c hc
    have hb := Bool.and_eq_true _ _ |>.mp hcc
    exact ⟨of_decide_eq_true hb.1, of_decide_eq_true hb.2⟩

/-- Witness for C8 (amended): the accepted key `port_status.8080`. -/
theorem port_token_amended_witness :
    ("8080" : String).data ≠ [] ∧
    ∀ c ∈ ("8080" : String).data, ('0' ≤ c ∧ c ≤ '9') :=
  port_token_amended "port_status.8080" "8080" (by rfl)

/-- C9: `o2_list_projects` fails when `HOME` is absent; fails with a
"registry missing" error when the registry path is not a regular file;
fails when the contents do not parse as JSON or the root is not an array;
otherwise returns the pretty-printed array — and every failure message
carries the offending path verbatim (the message is the stated literal
with the path embedded). -/
theorem o2_list_projects_errors :
    ∀ (isFile : String → Bool) (fsRead : String → Except String String)
      (parseJson : String → Except String Json)
      (pretty : Json → Except String String),
      (∀ e : String,
        o2_list_projects (.error e) isFile fsRead parseJson pretty
          = .error ("HOME not set: " ++ e)) ∧
      (∀ home : String,
        (isFile (home ++ "/dev/o2/registry/projects.json") = false →
          o2_list_projects (.ok home) isFile fsRead parseJson pretty
            = .error ("O2 registry missing: " ++
                (home ++ "/dev/o2/registry/projects.json"))) ∧
        (isFile (home ++ "/dev/o2/registry/projects.json") = true →
          (∀ e, fsRead (home ++ "/dev/o2/registry/projects.json")
              = .error e →
            o2_list_projects (.ok home) isFile fsRead parseJson pretty
              = .error ("Failed to read " ++
                  (home ++ "/dev/o2/registry/projects.json") ++ ": " ++ e)) ∧
          (∀ contents,
            fsRead (home ++ "/dev/o2/registry/projects.json")
              = .ok contents →
            (∀ e, parseJson contents = .error e →
              o2_list_projects (.ok home) isFile fsRead parseJson pretty
                = .error ("Invalid JSON in " ++
                    (home ++ "/dev/o2/registry/projects.json") ++
                    ": " ++ e)) ∧
            (∀ j, parseJson contents = .ok j →
              (∀ elems, j ≠ Json.arr elems) →
              o2_list_projects (.ok home) isFile fsRead parseJson pretty
                = .error ("Registry at " ++
                    (home ++ "/dev/o2/registry/projects.json") ++
                    " is not a JSON array")) ∧
            (∀ elems txt, parseJson contents = .ok (Json.arr elems) →
              pretty (Json.arr elems) = .ok txt →
              o2_list_projects (.ok home) isFile fsRead parseJson pretty
                = .ok txt)))) := by
  intro isFile fsRead parseJson pretty
  constructor
  · intro e
    rfl
  · intro home
    constructor
    · intro hmiss
      unfold o2_list_projects
      dsimp only
      rw [hmiss]
      rfl
    · intro hfile
      refine ⟨fun e hred => ?_, fun contents hok => ⟨fun e hpe => ?_,
        fun j hpj hnarr => ?_, fun elems txt hpa hpp => ?_⟩⟩
      · unfold o2_list_projects read_json_array
        dsimp only
        rw [hfile, hred]
        rfl
      · unfold o2_list_projects read_json_array
        dsimp only
        rw [hfile, hok]
        dsimp only
        rw [hpe]
        rfl
      · unfold o2_list_projects read_json_array
        dsimp only
        rw [hfile, hok]
        dsimp only
        rw [hpj]
        cases j with
        | arr elems => exact absurd rfl (hnarr elems)
        | null => rfl
        | bool b => rfl
        | num n => rfl
        | str s => rfl
        | obj fields => rfl
      · unfold o2_list_projects read_json_array
        dsimp only
        rw [hfile, hok]
        dsimp only
        rw [hpa]
        dsimp only
        rw [hpp]
        rfl

/-- Witness for C9: a registry whose parse yields an empty array. -/
theorem o2_list_projects_errors_witness :
    o2_list_projects (.ok "/home/chris") (fun _ => true) (fun _ => .ok "[]")
      (fun _ => .ok (Json.arr [])) (fun _ => .ok "[]") = .ok "[]" :=
  (((o2_list_projects_errors (fun _ => true) (fun _ => .ok "[]")
      (fun _ => .ok (Json.arr [])) (fun _ => .ok "[]")).2
    "/home/chris").2 rfl).2 "[]" rfl |>.2.2 [] "[]" rfl rfl
